import Mathlib

/-!
Shallow embedding of `src/actors/state/src/check.rs` (the state-invariant
verifier of the builtin-actors repository), together with theorems about the
properties the specification claims of it.

Modelling conventions:
* `Cid` (an opaque content identifier compared only for equality) is `Nat`.
* `TokenAmount` / `BigInt` (arbitrary-precision signed integers) are `Int`.
* `ChainEpoch` (an `i64` never overflowed here) is `Int`.
* Raw tree keys (byte strings) are `List Nat`.
* `anyhow` errors are modelled by the inductive `FatalError`, one constructor
  per error-construction site, carrying the data interpolated into the
  message at that site.
* External collaborators (the address codec from `fvm_shared`, the blockstore
  `get_cbor` accessor specialised at each state type, and the ten per-kind
  checkers from the actor crates) are parameters, bundled in `Store` and
  `Externs`; their state and summary types are the type fields of `Kinds`.
* The mutable locals of `check_state_invariants` (the accumulator, the
  running total and the summary slots) become the explicit state record
  `AuditState`, threaded through the traversal.
-/

namespace StateCheck

/-- Content identifier (`cid::Cid`): opaque, compared for equality only. -/
abbrev Cid := Nat

/-- `fvm_shared::econ::TokenAmount` (arbitrary-precision token amount). -/
abbrev TokenAmount := Int

/-- `fvm_shared::clock::ChainEpoch`. -/
abbrev ChainEpoch := Int

/-- `fvm_shared::address::Protocol`: the address protocol tag. -/
inductive Protocol where
  | ID
  | Secp256k1
  | Actor
  | BLS
deriving DecidableEq, Repr

/-- `fvm_shared::address::Address`: a decoded address value. The verifier
only inspects the protocol tag and displays the address; the payload keeps
distinct addresses distinct. -/
structure Address where
  protocol : Protocol
  payload : Nat
deriving DecidableEq, Repr

/-- `fvm_shared::actor::builtin::Type`: the closed enumeration of builtin
actor kinds (named `ActorType` because `Type` is a Lean keyword). -/
inductive ActorType where
  | System
  | Init
  | Cron
  | Account
  | Power
  | Miner
  | Market
  | PaymentChannel
  | Multisig
  | Reward
  | VerifiedRegistry
deriving DecidableEq, Repr

/-- `fvm_shared::actor::builtin::Manifest`, exposing `get_by_left`:
a partial map from code identity to kind. -/
abbrev Manifest := Cid → Option ActorType

/-- The `Actor` record stored per tree entry (`check.rs` lines 68-75). -/
structure Actor where
  code : Cid
  head : Cid
  call_seq_num : Nat
  balance : TokenAmount
deriving DecidableEq, Repr

/-- The state-blob and summary types of the ten non-System actor kinds, plus
the opaque `Policy` bundle. These are external to the verifier core; the
verifier is generic over them. -/
structure Kinds where
  Policy : Type
  InitState : Type
  CronState : Type
  AccountState : Type
  PowerState : Type
  MinerState : Type
  MarketState : Type
  PaychState : Type
  MultisigState : Type
  RewardState : Type
  VerifregState : Type
  InitSummary : Type
  CronSummary : Type
  AccountSummary : Type
  PowerSummary : Type
  MinerSummary : Type
  MarketSummary : Type
  PaychSummary : Type
  MultisigSummary : Type
  RewardSummary : Type
  VerifregSummary : Type

/-- The blockstore accessor `store.get_cbor::<T>(&cid)`, specialised at each
state type used by `get_state!`: `Except String` is the decode-error outcome
(propagated by `?`), `Option` distinguishes presence from absence. -/
structure Store (K : Kinds) where
  getInit : Cid → Except String (Option K.InitState)
  getCron : Cid → Except String (Option K.CronState)
  getAccount : Cid → Except String (Option K.AccountState)
  getPower : Cid → Except String (Option K.PowerState)
  getMiner : Cid → Except String (Option K.MinerState)
  getMarket : Cid → Except String (Option K.MarketState)
  getPaych : Cid → Except String (Option K.PaychState)
  getMultisig : Cid → Except String (Option K.MultisigState)
  getReward : Cid → Except String (Option K.RewardState)
  getVerifreg : Cid → Except String (Option K.VerifregState)

/-- The remaining external collaborators: the address codec and display from
`fvm_shared`, and the ten per-kind `testing::check_state_invariants`
checkers, each with exactly the contextual parameters its call site passes
(`check.rs` lines 115-180). -/
structure Externs (K : Kinds) where
  decodeAddress : List Nat → Except String Address
  showAddr : Address → String
  init_check : K.InitState → Store K → K.InitSummary × List String
  cron_check : K.CronState → K.CronSummary × List String
  account_check : K.AccountState → Address → K.AccountSummary × List String
  power_check : K.Policy → K.PowerState → Store K → K.PowerSummary × List String
  miner_check : K.Policy → K.MinerState → Store K → TokenAmount → K.MinerSummary × List String
  market_check : K.MarketState → Store K → TokenAmount → ChainEpoch → K.MarketSummary × List String
  paych_check : K.PaychState → Store K → TokenAmount → K.PaychSummary × List String
  multisig_check : K.MultisigState → Store K → K.MultisigSummary × List String
  reward_check : K.RewardState → ChainEpoch → TokenAmount → K.RewardSummary × List String
  verifreg_check : K.VerifregState → Store K → K.VerifregSummary × List String

/-- `Tree`: the state-tree snapshot, a map from raw keys to actor records
plus the backing store (`check.rs` lines 46-52). The map is modelled as its
entry list in traversal order. -/
structure Tree (K : Kinds) where
  map : List (List Nat × Actor)
  store : Store K

/-- The `anyhow` errors produced by the verifier, one constructor per
error-construction site, carrying the data formatted into the message there:
* `fromBytes`: `Address::from_bytes(key)?` failed (external message);
* `getCbor`: `store.get_cbor::<T>(..)?` failed to decode (external message);
* `stateEmpty`: `anyhow!("{} is empty", stringify!($state))`;
* `unexpectedActorCode`: `bail!("unexpected actor code CID {} for address {}", actor.code, key)`;
* `failedIteratingMap`: the `map_err(|e| anyhow!("Failed iterating map: {}", e))`
  wrapper applied by `Tree::for_each`. -/
inductive FatalError where
  | fromBytes (msg : String)
  | getCbor (msg : String)
  | stateEmpty (stateName : String)
  | unexpectedActorCode (code : Cid) (key : Address)
  | failedIteratingMap (inner : FatalError)
deriving DecidableEq, Repr

/-- The mutable locals of `check_state_invariants` (`check.rs` lines 93-105)
as an explicit state record: the root `MessageAccumulator` (its messages in
the order produced, already fully prefixed), the running `total_fil`, and
the per-kind summary slots. `miner_summaries` (a `HashMap`) is modelled as
an association list with insert-replace semantics. -/
structure AuditState (K : Kinds) where
  acc : List String
  total_fil : Int
  init_summary : Option K.InitSummary
  cron_summary : Option K.CronSummary
  account_summaries : List K.AccountSummary
  power_summary : Option K.PowerSummary
  miner_summaries : List (Address × K.MinerSummary)
  market_summary : Option K.MarketSummary
  paych_summaries : List K.PaychSummary
  multisig_summaries : List K.MultisigSummary
  reward_summary : Option K.RewardSummary
  verifreg_summary : Option K.VerifregSummary

/-- `MessageAccumulator::default()` and the zero-initialised locals. -/
def AuditState.init (K : Kinds) : AuditState K :=
  { acc := []
    total_fil := 0
    init_summary := none
    cron_summary := none
    account_summaries := []
    power_summary := none
    miner_summaries := []
    market_summary := none
    paych_summaries := []
    multisig_summaries := []
    reward_summary := none
    verifreg_summary := none }

/-- `HashMap::insert`: replaces any existing binding for the key. (Iteration
order of the Rust `HashMap` is unspecified; no claim depends on it.) -/
def insertReplace {β : Type} (l : List (Address × β)) (k : Address) (v : β) :
    List (Address × β) :=
  l.filter (fun p => decide (p.1 ≠ k)) ++ [(k, v)]

variable {K : Kinds}

/-- The message added by the address-protocol check, fully prefixed: the
per-entry accumulator carries prefix `"{key} "` and the message is
`"unexpected address protocol in state tree root: {key}"`
(`check.rs` lines 108-112). -/
def protoMsg (E : Externs K) (key : Address) : String :=
  E.showAddr key ++ " unexpected address protocol in state tree root: " ++ E.showAddr key

/-- Messages returned by a per-kind checker, as merged into the root
accumulator: each is prefixed by `"{key} "` then the kind label
(`acc.with_prefix("{key} ").with_prefix("init: ").add_all(&msgs)`). -/
def kindMsgs (E : Externs K) (key : Address) (kind : String) (msgs : List String) :
    List String :=
  msgs.map (fun m => E.showAddr key ++ " " ++ kind ++ m)

/-- Step 1 of the per-entry body (`check.rs` lines 110-112): the
address-protocol check, a non-fatal diagnostic. -/
def protoCheck (E : Externs K) (key : Address) (st : AuditState K) : AuditState K :=
  if key.protocol ≠ Protocol.ID then
    { st with acc := st.acc ++ [protoMsg E key] }
  else st

/-- Step 2 of the per-entry body (`check.rs` line 113):
`total_fil += &actor.balance`. -/
def addBalance (actor : Actor) (st : AuditState K) : AuditState K :=
  { st with total_fil := st.total_fil + actor.balance }

/-- The name interpolated by `get_state!`'s
`anyhow!("{} is empty", stringify!($state))` at each call site. -/
def stateEmptyName : ActorType → String
  | .System => ""
  | .Init => "InitState"
  | .Cron => "CronState"
  | .Account => "AccountState"
  | .Power => "PowerState"
  | .Miner => "MinerState"
  | .Market => "MarketState"
  | .PaymentChannel => "PaychState"
  | .Multisig => "MultisigState"
  | .Reward => "RewardState"
  | .VerifiedRegistry => "VerifregState"

/-- Step 3 of the per-entry body (`check.rs` lines 115-184): resolve
`actor.code` through the manifest and dispatch to the kind-specific checker.
Returns the updated state and, when the body bails, the fatal error. Each
branch fetches the state blob with `get_state!` (decode error or absence is
fatal), invokes the kind's checker, merges its messages under the kind
prefix, and stores its summary per the kind's cardinality rule. -/
def dispatchEntry (E : Externs K) (store : Store K) (manifest : Manifest)
    (policy : K.Policy) (prior_epoch : ChainEpoch) (key : Address) (actor : Actor)
    (st : AuditState K) : AuditState K × Option FatalError :=
  match manifest actor.code with
  | some .System => (st, none)
  | some .Init =>
    match store.getInit actor.head with
    | .error e => (st, some (.getCbor e))
    | .ok none => (st, some (.stateEmpty "InitState"))
    | .ok (some state) =>
      let r := E.init_check state store
      ({ st with acc := st.acc ++ kindMsgs E key "init: " r.2,
                 init_summary := some r.1 }, none)
  | some .Cron =>
    match store.getCron actor.head with
    | .error e => (st, some (.getCbor e))
    | .ok none => (st, some (.stateEmpty "CronState"))
    | .ok (some state) =>
      let r := E.cron_check state
      ({ st with acc := st.acc ++ kindMsgs E key "cron: " r.2,
                 cron_summary := some r.1 }, none)
  | some .Account =>
    match store.getAccount actor.head with
    | .error e => (st, some (.getCbor e))
    | .ok none => (st, some (.stateEmpty "AccountState"))
    | .ok (some state) =>
      let r := E.account_check state key
      ({ st with acc := st.acc ++ kindMsgs E key "account: " r.2,
                 account_summaries := st.account_summaries ++ [r.1] }, none)
  | some .Power =>
    match store.getPower actor.head with
    | .error e => (st, some (.getCbor e))
    | .ok none => (st, some (.stateEmpty "PowerState"))
    | .ok (some state) =>
      let r := E.power_check policy state store
      ({ st with acc := st.acc ++ kindMsgs E key "power: " r.2,
                 power_summary := some r.1 }, none)
  | some .Miner =>
    match store.getMiner actor.head with
    | .error e => (st, some (.getCbor e))
    | .ok none => (st, some (.stateEmpty "MinerState"))
    | .ok (some state) =>
      let r := E.miner_check policy state store actor.balance
      ({ st with acc := st.acc ++ kindMsgs E key "miner: " r.2,
                 miner_summaries := insertReplace st.miner_summaries key r.1 }, none)
  | some .Market =>
    match store.getMarket actor.head with
    | .error e => (st, some (.getCbor e))
    | .ok none => (st, some (.stateEmpty "MarketState"))
    | .ok (some state) =>
      let r := E.market_check state store actor.balance prior_epoch
      ({ st with acc := st.acc ++ kindMsgs E key "market: " r.2,
                 market_summary := some r.1 }, none)
  | some .PaymentChannel =>
    match store.getPaych actor.head with
    | .error e => (st, some (.getCbor e))
    | .ok none => (st, some (.stateEmpty "PaychState"))
    | .ok (some state) =>
      let r := E.paych_check state store actor.balance
      ({ st with acc := st.acc ++ kindMsgs E key "paych: " r.2,
                 paych_summaries := st.paych_summaries ++ [r.1] }, none)
  | some .Multisig =>
    match store.getMultisig actor.head with
    | .error e => (st, some (.getCbor e))
    | .ok none => (st, some (.stateEmpty "MultisigState"))
    | .ok (some state) =>
      let r := E.multisig_check state store
      ({ st with acc := st.acc ++ kindMsgs E key "multisig: " r.2,
                 multisig_summaries := st.multisig_summaries ++ [r.1] }, none)
  | some .Reward =>
    match store.getReward actor.head with
    | .error e => (st, some (.getCbor e))
    | .ok none => (st, some (.stateEmpty "RewardState"))
    | .ok (some state) =>
      let r := E.reward_check state prior_epoch actor.balance
      ({ st with acc := st.acc ++ kindMsgs E key "reward: " r.2,
                 reward_summary := some r.1 }, none)
  | some .VerifiedRegistry =>
    match store.getVerifreg actor.head with
    | .error e => (st, some (.getCbor e))
    | .ok none => (st, some (.stateEmpty "VerifregState"))
    | .ok (some state) =>
      let r := E.verifreg_check state store
      ({ st with acc := st.acc ++ kindMsgs E key "verifreg: " r.2,
                 verifreg_summary := some r.1 }, none)
  | none => (st, some (.unexpectedActorCode actor.code key))

/-- The whole per-entry closure body (`check.rs` lines 107-186), in source
order: protocol check, balance accumulation, then manifest dispatch. -/
def checkEntry (E : Externs K) (store : Store K) (manifest : Manifest)
    (policy : K.Policy) (prior_epoch : ChainEpoch) (key : Address) (actor : Actor)
    (st : AuditState K) : AuditState K × Option FatalError :=
  dispatchEntry E store manifest policy prior_epoch key actor
    (addBalance actor (protoCheck E key st))

/-- The traversal underlying `Tree::for_each` (`check.rs` lines 55-65),
before the error wrapper: decode each raw key with `Address::from_bytes`
(failure is fatal and stops the traversal), then run the callback; a
callback error stops the traversal. -/
def forEachGo (decode : List Nat → Except String Address)
    (f : Address → Actor → AuditState K → AuditState K × Option FatalError) :
    List (List Nat × Actor) → AuditState K → Except FatalError (AuditState K)
  | [], st => .ok st
  | (key, actor) :: rest, st =>
    match decode key with
    | .error e => .error (.fromBytes e)
    | .ok addr =>
      match f addr actor st with
      | (st', none) => forEachGo decode f rest st'
      | (_, some e) => .error e

/-- `Tree::for_each` (`check.rs` lines 55-65): the traversal with every
error wrapped by `map_err(|e| anyhow!("Failed iterating map: {}", e))`. -/
def Tree.for_each (E : Externs K) (t : Tree K)
    (f : Address → Actor → AuditState K → AuditState K × Option FatalError)
    (st : AuditState K) : Except FatalError (AuditState K) :=
  (forEachGo E.decodeAddress f t.map st).mapError .failedIteratingMap

/-- The traversal phase of `check_state_invariants` (`check.rs` lines
93-187): run the per-entry body over the whole tree starting from the
zero-initialised locals, yielding the final locals or the fatal error. -/
def runAudit (E : Externs K) (manifest : Manifest) (policy : K.Policy)
    (tree : Tree K) (prior_epoch : ChainEpoch) : Except FatalError (AuditState K) :=
  Tree.for_each E tree
    (fun key actor st => checkEntry E tree.store manifest policy prior_epoch key actor st)
    (AuditState.init K)

/-- `check_state_invariants` exactly as the source file has it
(`check.rs` lines 86-190): the function returns the traversal's
`anyhow::Result<()>`; the cross-actor reconciliation pass is left as a stub
comment and the accumulator and totals are dropped on return. -/
def check_state_invariants (E : Externs K) (manifest : Manifest) (policy : K.Policy)
    (tree : Tree K) (expected_balance_total : TokenAmount) (prior_epoch : ChainEpoch) :
    Except FatalError Unit :=
  (runAudit E manifest policy tree prior_epoch).map (fun _ => ())

/-- Modelled from the spec: the wording of the balance-mismatch diagnostic
emitted by the reconciliation pass, which is missing from the source file
(`check.rs` ends in the stub comment "Perform cross-actor checks from state
summaries here."). -/
def mismatchMsg (total expected : Int) : String :=
  s!"total token balance is {total}, expected {expected}"

/-- Modelled from the spec: the cross-actor reconciliation pass ("Compare
the grand total balance accumulated in step 4.2.2 against the caller-supplied
expected total currency supply; mismatch is a non-fatal diagnostic").
Missing from the source file, which stops at the stub comment. -/
def reconcile (expected_balance_total : TokenAmount) (st : AuditState K) :
    List String :=
  if st.total_fil = expected_balance_total then st.acc
  else st.acc ++ [mismatchMsg st.total_fil expected_balance_total]

/-- Modelled from the spec: the audit entry point
`checkStateInvariants(manifest, policy, tree, expectedTotalBalance,
priorEpoch) -> Result<Report, FatalError>`, returning the report (the
accumulator contents after the reconciliation pass). The source file's
`check_state_invariants` is this with the reconciliation stubbed out and the
report discarded. -/
def checkStateInvariantsReport (E : Externs K) (manifest : Manifest)
    (policy : K.Policy) (tree : Tree K) (expected_balance_total : TokenAmount)
    (prior_epoch : ChainEpoch) : Except FatalError (List String) :=
  (runAudit E manifest policy tree prior_epoch).map (reconcile expected_balance_total)

/-- Decidable well-formedness of one entry's head for a given kind: `System`
carries no auditable state; any other kind requires its getter to return a
present, decodable blob. -/
def headOk (store : Store K) : ActorType → Actor → Bool
  | .System, _ => true
  | .Init, a => match store.getInit a.head with | .ok (some _) => true | _ => false
  | .Cron, a => match store.getCron a.head with | .ok (some _) => true | _ => false
  | .Account, a => match store.getAccount a.head with | .ok (some _) => true | _ => false
  | .Power, a => match store.getPower a.head with | .ok (some _) => true | _ => false
  | .Miner, a => match store.getMiner a.head with | .ok (some _) => true | _ => false
  | .Market, a => match store.getMarket a.head with | .ok (some _) => true | _ => false
  | .PaymentChannel, a => match store.getPaych a.head with | .ok (some _) => true | _ => false
  | .Multisig, a => match store.getMultisig a.head with | .ok (some _) => true | _ => false
  | .Reward, a => match store.getReward a.head with | .ok (some _) => true | _ => false
  | .VerifiedRegistry, a => match store.getVerifreg a.head with | .ok (some _) => true | _ => false

/-- Decidable well-formedness of one raw tree entry: its key decodes to an
address, its code identity is in the manifest, and its head resolves
(`headOk`). These are exactly the conditions under which the per-entry body
cannot bail. -/
def entryOk (E : Externs K) (store : Store K) (manifest : Manifest)
    (e : List Nat × Actor) : Bool :=
  (match E.decodeAddress e.1 with | .ok _ => true | .error _ => false) &&
  (match manifest e.2.code with | some t => headOk store t e.2 | none => false)

/-- Sum of the `balance` fields over a list of raw tree entries. -/
def balanceSum (l : List (List Nat × Actor)) : Int :=
  (l.map (fun e => e.2.balance)).sum

/-- Decidable test that an actor's head is absent from the store for its
declared kind (the getter returns `Ok(None)`), the condition under which
`get_state!` produces its "is empty" error. -/
def headEmpty (store : Store K) : ActorType → Actor → Bool
  | .System, _ => false
  | .Init, a => match store.getInit a.head with | .ok none => true | _ => false
  | .Cron, a => match store.getCron a.head with | .ok none => true | _ => false
  | .Account, a => match store.getAccount a.head with | .ok none => true | _ => false
  | .Power, a => match store.getPower a.head with | .ok none => true | _ => false
  | .Miner, a => match store.getMiner a.head with | .ok none => true | _ => false
  | .Market, a => match store.getMarket a.head with | .ok none => true | _ => false
  | .PaymentChannel, a => match store.getPaych a.head with | .ok none => true | _ => false
  | .Multisig, a => match store.getMultisig a.head with | .ok none => true | _ => false
  | .Reward, a => match store.getReward a.head with | .ok none => true | _ => false
  | .VerifiedRegistry, a => match store.getVerifreg a.head with | .ok none => true | _ => false

/-- A concrete instantiation of the kind-specific types, for evaluating the
verifier on explicit inputs: every state and summary type is `Nat` and the
policy bundle is trivial. -/
abbrev K0 : Kinds where
  Policy := Unit
  InitState := Nat
  CronState := Nat
  AccountState := Nat
  PowerState := Nat
  MinerState := Nat
  MarketState := Nat
  PaychState := Nat
  MultisigState := Nat
  RewardState := Nat
  VerifregState := Nat
  InitSummary := Nat
  CronSummary := Nat
  AccountSummary := Nat
  PowerSummary := Nat
  MinerSummary := Nat
  MarketSummary := Nat
  PaychSummary := Nat
  MultisigSummary := Nat
  RewardSummary := Nat
  VerifregSummary := Nat

/-- A concrete store: heads `100` and `101` resolve (to states `0` and `1`
respectively), every other head is absent. -/
def store0 : Store K0 where
  getInit := fun h =>
    if h = 100 then .ok (some 0) else if h = 101 then .ok (some 1) else .ok none
  getCron := fun h =>
    if h = 100 then .ok (some 0) else if h = 101 then .ok (some 1) else .ok none
  getAccount := fun h =>
    if h = 100 then .ok (some 0) else if h = 101 then .ok (some 1) else .ok none
  getPower := fun h =>
    if h = 100 then .ok (some 0) else if h = 101 then .ok (some 1) else .ok none
  getMiner := fun h =>
    if h = 100 then .ok (some 0) else if h = 101 then .ok (some 1) else .ok none
  getMarket := fun h =>
    if h = 100 then .ok (some 0) else if h = 101 then .ok (some 1) else .ok none
  getPaych := fun h =>
    if h = 100 then .ok (some 0) else if h = 101 then .ok (some 1) else .ok none
  getMultisig := fun h =>
    if h = 100 then .ok (some 0) else if h = 101 then .ok (some 1) else .ok none
  getReward := fun h =>
    if h = 100 then .ok (some 0) else if h = 101 then .ok (some 1) else .ok none
  getVerifreg := fun h =>
    if h = 100 then .ok (some 0) else if h = 101 then .ok (some 1) else .ok none

/-- A concrete manifest: code identities `0`-`10` map to the eleven kinds in
declaration order; everything else is unknown. -/
def m0 : Manifest := fun c =>
  if c = 0 then some .System
  else if c = 1 then some .Init
  else if c = 2 then some .Cron
  else if c = 3 then some .Account
  else if c = 4 then some .Power
  else if c = 5 then some .Miner
  else if c = 6 then some .Market
  else if c = 7 then some .PaymentChannel
  else if c = 8 then some .Multisig
  else if c = 9 then some .Reward
  else if c = 10 then some .VerifiedRegistry
  else none

/-- Concrete external collaborators: the codec decodes `[0, n]` to the ID
address `n` and `[1, n]` to a secp256k1 address, each checker returns its
input state as summary with no messages. -/
def E0 : Externs K0 where
  decodeAddress := fun bs =>
    match bs with
    | [0, n] => .ok ⟨.ID, n⟩
    | [1, n] => .ok ⟨.Secp256k1, n⟩
    | _ => .error "invalid address bytes"
  showAddr := fun a => "f0" ++ toString a.payload
  init_check := fun s _ => (s, [])
  cron_check := fun s => (s, [])
  account_check := fun s _ => (s, [])
  power_check := fun _ s _ => (s, [])
  miner_check := fun _ s _ _ => (s, [])
  market_check := fun s _ _ _ => (s, [])
  paych_check := fun s _ _ => (s, [])
  multisig_check := fun s _ => (s, [])
  reward_check := fun s _ _ => (s, [])
  verifreg_check := fun s _ => (s, [])

/-- Concrete actors for the explicit evaluations. -/
def sysActor : Actor := { code := 0, head := 100, call_seq_num := 0, balance := 0 }

/-- Account actor with balance 5. -/
def accActor5 : Actor := { code := 3, head := 100, call_seq_num := 0, balance := 5 }

/-- Account actor with balance 3. -/
def accActor3 : Actor := { code := 3, head := 101, call_seq_num := 0, balance := 3 }

/-- Init actor whose head resolves to state `0`. -/
def initActorA : Actor := { code := 1, head := 100, call_seq_num := 0, balance := 0 }

/-- Init actor whose head resolves to state `1`. -/
def initActorB : Actor := { code := 1, head := 101, call_seq_num := 0, balance := 0 }

/-- Actor whose code identity `99` is absent from `m0`. -/
def unknownActor : Actor := { code := 99, head := 100, call_seq_num := 0, balance := 7 }

/-- Init actor whose head `50` is absent from `store0`. -/
def emptyInitActor : Actor := { code := 1, head := 50, call_seq_num := 0, balance := 2 }

/-- A well-formed tree: two account actors with balances 5 and 3. -/
def tree0 : Tree K0 := { map := [([0, 1], accActor5), ([0, 2], accActor3)], store := store0 }

/-- A tree whose second entry has an unknown code identity. -/
def treeUnknown : Tree K0 :=
  { map := [([0, 1], sysActor), ([0, 2], unknownActor)], store := store0 }

/-- A tree whose second entry is an Init actor with an absent head. -/
def treeEmptyHead : Tree K0 :=
  { map := [([0, 1], sysActor), ([0, 2], emptyInitActor)], store := store0 }

/-- A tree whose second raw key does not decode to an address. -/
def treeBadKey : Tree K0 :=
  { map := [([0, 1], sysActor), ([7], sysActor), ([0, 3], accActor5)], store := store0 }

/-- A tree with two Init actors (a duplicated singleton kind). -/
def treeTwoInit : Tree K0 :=
  { map := [([0, 1], initActorA), ([0, 2], initActorB)], store := store0 }

/-- The audit state reached by a successful traversal of `tree0`. -/
def st0 : AuditState K0 :=
  { acc := []
    total_fil := 8
    init_summary := none
    cron_summary := none
    account_summaries := [0, 1]
    power_summary := none
    miner_summaries := []
    market_summary := none
    paych_summaries := []
    multisig_summaries := []
    reward_summary := none
    verifreg_summary := none }

/-- The audit state reached by a successful traversal of `treeTwoInit`: the
second Init actor's summary has silently replaced the first one's. -/
def stTwoInit : AuditState K0 :=
  { AuditState.init K0 with total_fil := 0, init_summary := some 1 }

/-- An audit state that already holds an Init summary, used to exhibit the
overwrite behaviour on a repeated singleton kind. -/
def stPriorInit : AuditState K0 :=
  { AuditState.init K0 with init_summary := some 0 }

end StateCheck

namespace StateCheck

variable {K : Kinds}

theorem protoCheck_total (E : Externs K) (key : Address) (st : AuditState K) :
    (protoCheck E key st).total_fil = st.total_fil := by
  unfold protoCheck; split <;> rfl

theorem protoCheck_id (E : Externs K) (key : Address) (st : AuditState K)
    (h : key.protocol = Protocol.ID) : protoCheck E key st = st := by
  simp [protoCheck, h]

theorem protoCheck_nonid (E : Externs K) (key : Address) (st : AuditState K)
    (h : key.protocol ≠ Protocol.ID) :
    protoCheck E key st = { st with acc := st.acc ++ [protoMsg E key] } := by
  simp [protoCheck, h]

theorem dispatch_total (E : Externs K) (store : Store K) (manifest : Manifest)
    (policy : K.Policy) (prior_epoch : ChainEpoch) (key : Address) (actor : Actor)
    (st : AuditState K) :
    (dispatchEntry E store manifest policy prior_epoch key actor st).1.total_fil
      = st.total_fil := by
  unfold dispatchEntry
  split <;> try rfl
  all_goals split <;> rfl

theorem dispatch_err_indep (E : Externs K) (store : Store K) (manifest : Manifest)
    (policy : K.Policy) (prior_epoch : ChainEpoch) (key : Address) (actor : Actor)
    (st st' : AuditState K) :
    (dispatchEntry E store manifest policy prior_epoch key actor st).2
      = (dispatchEntry E store manifest policy prior_epoch key actor st').2 := by
  unfold dispatchEntry
  split <;> try rfl
  all_goals split <;> rfl

theorem dispatch_acc (E : Externs K) (store : Store K) (manifest : Manifest)
    (policy : K.Policy) (prior_epoch : ChainEpoch) (key : Address) (actor : Actor)
    (st : AuditState K) :
    (dispatchEntry E store manifest policy prior_epoch key actor st).1.acc
      = st.acc ++ (dispatchEntry E store manifest policy prior_epoch key actor
          (AuditState.init K)).1.acc := by
  unfold dispatchEntry
  split <;> try simp [AuditState.init]
  all_goals split <;> simp [AuditState.init]

theorem dispatch_ok (E : Externs K) (store : Store K) (manifest : Manifest)
    (policy : K.Policy) (prior_epoch : ChainEpoch) (key : Address) (actor : Actor)
    (st : AuditState K) (t : ActorType) (hm : manifest actor.code = some t)
    (hok : headOk store t actor = true) :
    (dispatchEntry E store manifest policy prior_epoch key actor st).2 = none := by
  unfold dispatchEntry
  rw [hm]
  cases t <;> simp only [headOk] at hok <;>
    first
      | rfl
      | (split at hok <;> simp_all)

theorem checkEntry_total (E : Externs K) (store : Store K) (manifest : Manifest)
    (policy : K.Policy) (prior_epoch : ChainEpoch) (key : Address) (actor : Actor)
    (st : AuditState K) :
    (checkEntry E store manifest policy prior_epoch key actor st).1.total_fil
      = st.total_fil + actor.balance := by
  unfold checkEntry
  rw [dispatch_total]
  show (protoCheck E key st).total_fil + actor.balance = st.total_fil + actor.balance
  rw [protoCheck_total]

theorem checkEntry_ok (E : Externs K) (store : Store K) (manifest : Manifest)
    (policy : K.Policy) (prior_epoch : ChainEpoch) (key : Address) (actor : Actor)
    (st : AuditState K) (t : ActorType) (hm : manifest actor.code = some t)
    (hok : headOk store t actor = true) :
    (checkEntry E store manifest policy prior_epoch key actor st).2 = none := by
  unfold checkEntry
  exact dispatch_ok E store manifest policy prior_epoch key actor _ t hm hok

theorem checkEntry_unknown (E : Externs K) (store : Store K) (manifest : Manifest)
    (policy : K.Policy) (prior_epoch : ChainEpoch) (key : Address) (actor : Actor)
    (st : AuditState K) (hm : manifest actor.code = none) :
    checkEntry E store manifest policy prior_epoch key actor st
      = (addBalance actor (protoCheck E key st),
         some (.unexpectedActorCode actor.code key)) := by
  unfold checkEntry dispatchEntry
  rw [hm]

theorem checkEntry_emptyHead (E : Externs K) (store : Store K) (manifest : Manifest)
    (policy : K.Policy) (prior_epoch : ChainEpoch) (key : Address) (actor : Actor)
    (st : AuditState K) (t : ActorType) (hm : manifest actor.code = some t)
    (ht : t ≠ .System) (he : headEmpty store t actor = true) :
    checkEntry E store manifest policy prior_epoch key actor st
      = (addBalance actor (protoCheck E key st),
         some (.stateEmpty (stateEmptyName t))) := by
  unfold checkEntry dispatchEntry
  rw [hm]
  cases t <;> simp only [headEmpty] at he <;>
    first
      | exact absurd rfl ht
      | (split at he <;> simp_all [stateEmptyName])

theorem mapError_eq_ok {α ε ε' : Type} (f : ε → ε') (x : Except ε α) (a : α)
    (h : x.mapError f = .ok a) : x = .ok a := by
  cases x with
  | error e => simp [Except.mapError] at h
  | ok b => simpa [Except.mapError] using h

theorem forEachGo_cons_bad (decode : List Nat → Except String Address)
    (f : Address → Actor → AuditState K → AuditState K × Option FatalError)
    (key : List Nat) (actor : Actor) (rest : List (List Nat × Actor))
    (st : AuditState K) (e : String) (hd : decode key = .error e) :
    forEachGo decode f ((key, actor) :: rest) st = .error (.fromBytes e) := by
  simp only [forEachGo, hd]

theorem forEachGo_cons_ok (decode : List Nat → Except String Address)
    (f : Address → Actor → AuditState K → AuditState K × Option FatalError)
    (key : List Nat) (actor : Actor) (rest : List (List Nat × Actor))
    (st st1 : AuditState K) (addr : Address)
    (hd : decode key = .ok addr) (hf : f addr actor st = (st1, none)) :
    forEachGo decode f ((key, actor) :: rest) st = forEachGo decode f rest st1 := by
  simp only [forEachGo, hd, hf]

theorem forEachGo_cons_err (decode : List Nat → Except String Address)
    (f : Address → Actor → AuditState K → AuditState K × Option FatalError)
    (key : List Nat) (actor : Actor) (rest : List (List Nat × Actor))
    (st st1 : AuditState K) (addr : Address) (err : FatalError)
    (hd : decode key = .ok addr) (hf : f addr actor st = (st1, some err)) :
    forEachGo decode f ((key, actor) :: rest) st = .error err := by
  simp only [forEachGo, hd, hf]

theorem forEachGo_append (decode : List Nat → Except String Address)
    (f : Address → Actor → AuditState K → AuditState K × Option FatalError)
    (l1 l2 : List (List Nat × Actor)) (st : AuditState K) :
    forEachGo decode f (l1 ++ l2) st
      = (forEachGo decode f l1 st).bind (fun s => forEachGo decode f l2 s) := by
  induction l1 generalizing st with
  | nil => rfl
  | cons e rest ih =>
    obtain ⟨key, actor⟩ := e
    rw [List.cons_append]
    cases hd : decode key with
    | error e =>
      rw [forEachGo_cons_bad decode f key actor _ st e hd,
          forEachGo_cons_bad decode f key actor _ st e hd]
      rfl
    | ok addr =>
      cases hf : f addr actor st with
      | mk st1 oe =>
        cases oe with
        | none =>
          rw [forEachGo_cons_ok decode f key actor _ st st1 addr hd hf,
              forEachGo_cons_ok decode f key actor _ st st1 addr hd hf, ih]
        | some err =>
          rw [forEachGo_cons_err decode f key actor _ st st1 addr err hd hf,
              forEachGo_cons_err decode f key actor _ st st1 addr err hd hf]
          rfl

theorem forEachGo_ok (E : Externs K) (store : Store K) (manifest : Manifest)
    (policy : K.Policy) (prior_epoch : ChainEpoch) (l : List (List Nat × Actor))
    (st : AuditState K)
    (h : ∀ e ∈ l, entryOk E store manifest e = true) :
    ∃ st', forEachGo E.decodeAddress
        (fun key actor s => checkEntry E store manifest policy prior_epoch key actor s)
        l st = .ok st' := by
  induction l generalizing st with
  | nil => exact ⟨st, rfl⟩
  | cons e rest ih =>
    obtain ⟨key, actor⟩ := e
    have he := h _ (List.mem_cons_self _ _)
    have hrest := fun e hm => h e (List.mem_cons_of_mem _ hm)
    rw [entryOk, Bool.and_eq_true] at he
    obtain ⟨h1, h2⟩ := he
    cases hd : E.decodeAddress key with
    | error err => rw [hd] at h1; simp at h1
    | ok addr =>
      cases hm : manifest actor.code with
      | none => rw [hm] at h2; simp at h2
      | some t =>
        rw [hm] at h2
        have hnone := checkEntry_ok E store manifest policy prior_epoch addr actor st t hm h2
        cases hc : checkEntry E store manifest policy prior_epoch addr actor st with
        | mk st1 oe =>
          rw [hc] at hnone
          cases oe with
          | some err => exact absurd hnone (by simp)
          | none =>
            obtain ⟨st', hst'⟩ := ih st1 hrest
            refine ⟨st', ?_⟩
            rw [forEachGo_cons_ok E.decodeAddress _ key actor rest st st1 addr hd hc]
            exact hst'

theorem forEachGo_total (E : Externs K) (store : Store K) (manifest : Manifest)
    (policy : K.Policy) (prior_epoch : ChainEpoch) (l : List (List Nat × Actor))
    (st st' : AuditState K)
    (h : forEachGo E.decodeAddress
        (fun key actor s => checkEntry E store manifest policy prior_epoch key actor s)
        l st = .ok st') :
    st'.total_fil = st.total_fil + balanceSum l := by
  induction l generalizing st with
  | nil =>
    simp only [forEachGo] at h
    cases h
    simp [balanceSum]
  | cons e rest ih =>
    obtain ⟨key, actor⟩ := e
    cases hd : E.decodeAddress key with
    | error err =>
      rw [forEachGo_cons_bad E.decodeAddress _ key actor rest st err hd] at h
      exact absurd h (by simp)
    | ok addr =>
      cases hc : checkEntry E store manifest policy prior_epoch addr actor st with
      | mk st1 oe =>
        cases oe with
        | some err =>
          rw [forEachGo_cons_err E.decodeAddress _ key actor rest st st1 addr err hd hc] at h
          exact absurd h (by simp)
        | none =>
          rw [forEachGo_cons_ok E.decodeAddress _ key actor rest st st1 addr hd hc] at h
          have hrest := ih st1 h
          have hstep : st1.total_fil = st.total_fil + actor.balance := by
            have h2 := checkEntry_total E store manifest policy prior_epoch addr actor st
            rw [hc] at h2
            exact h2
          rw [hrest, hstep]
          simp only [balanceSum, List.map_cons, List.sum_cons]
          ring

theorem bindOkEq {ε α β : Type} (a : α) (g : α → Except ε β) :
    (Except.ok (ε := ε) a).bind g = g a := rfl

theorem runAudit_eq (E : Externs K) (manifest : Manifest) (policy : K.Policy)
    (entries : List (List Nat × Actor)) (store : Store K) (prior_epoch : ChainEpoch) :
    runAudit E manifest policy ⟨entries, store⟩ prior_epoch
      = (forEachGo E.decodeAddress
          (fun key actor s => checkEntry E store manifest policy prior_epoch key actor s)
          entries (AuditState.init K)).mapError .failedIteratingMap := rfl

/-- Claim C1: in the (spec-modelled) reconciliation pass after a traversal
with no fatal abort, if the caller-supplied expected total equals the tree's
actual balance sum `T` no balance-mismatch diagnostic is emitted, and if it
equals `T + 1` exactly one mismatch diagnostic is appended to the report,
which is still returned as a success (the mismatch is non-fatal). -/
theorem claim1_conservation (E : Externs K) (manifest : Manifest) (policy : K.Policy)
    (tree : Tree K) (prior_epoch : ChainEpoch) (st : AuditState K)
    (h : runAudit E manifest policy tree prior_epoch = .ok st) :
    checkStateInvariantsReport E manifest policy tree (balanceSum tree.map) prior_epoch
      = .ok st.acc
    ∧ checkStateInvariantsReport E manifest policy tree (balanceSum tree.map + 1) prior_epoch
      = .ok (st.acc ++ [mismatchMsg (balanceSum tree.map) (balanceSum tree.map + 1)]) := by
  have hfe : forEachGo E.decodeAddress
      (fun key actor s => checkEntry E tree.store manifest policy prior_epoch key actor s)
      tree.map (AuditState.init K) = .ok st :=
    mapError_eq_ok _ _ _ h
  have htot : st.total_fil = balanceSum tree.map := by
    have h2 := forEachGo_total E tree.store manifest policy prior_epoch tree.map
      (AuditState.init K) st hfe
    simpa [AuditState.init] using h2
  constructor
  · unfold checkStateInvariantsReport
    rw [h]
    show Except.ok (reconcile (balanceSum tree.map) st) = _
    rw [reconcile, if_pos htot]
  · unfold checkStateInvariantsReport
    rw [h]
    show Except.ok (reconcile (balanceSum tree.map + 1) st) = _
    rw [reconcile, if_neg (by rw [htot]; omega), htot]

/-- Witness for C1: on a concrete two-account tree with balances 5 and 3,
expected total 8 yields an empty report and expected total 9 yields exactly
the one mismatch diagnostic. -/
theorem claim1_witness :
    checkStateInvariantsReport E0 m0 () tree0 8 0 = .ok []
    ∧ checkStateInvariantsReport E0 m0 () tree0 9 0 = .ok [mismatchMsg 8 9] := by
  have h := claim1_conservation E0 m0 () tree0 0 st0 rfl
  exact ⟨h.1, h.2⟩

/-- Claim C2: on every tree whose entries all have a decodable key, a code
identity present in the manifest, and (for non-System kinds) a head that
resolves to a decodable state blob, the audit completes without a fatal
error: the source's `check_state_invariants` returns `Ok(())` and the
(spec-modelled) report-returning entry point returns a report. -/
theorem claim2_total_audit (E : Externs K) (manifest : Manifest) (policy : K.Policy)
    (tree : Tree K) (expected : TokenAmount) (prior_epoch : ChainEpoch)
    (h : ∀ e ∈ tree.map, entryOk E tree.store manifest e = true) :
    (∃ report, checkStateInvariantsReport E manifest policy tree expected prior_epoch
        = .ok report)
    ∧ check_state_invariants E manifest policy tree expected prior_epoch = .ok () := by
  obtain ⟨st', hst'⟩ := forEachGo_ok E tree.store manifest policy prior_epoch tree.map
    (AuditState.init K) h
  have hr : runAudit E manifest policy tree prior_epoch = .ok st' := by
    unfold runAudit Tree.for_each
    rw [hst']
    rfl
  exact ⟨⟨reconcile expected st',
          by unfold checkStateInvariantsReport; rw [hr]; rfl⟩,
         by unfold check_state_invariants; rw [hr]; rfl⟩

/-- Witness for C2: the two-account tree audits successfully. -/
theorem claim2_witness :
    (∃ report, checkStateInvariantsReport E0 m0 () tree0 8 0 = .ok report)
    ∧ check_state_invariants E0 m0 () tree0 8 0 = .ok () :=
  claim2_total_audit E0 m0 () tree0 8 0 (by decide)

/-- Claim C3: a tree entry whose code identity is absent from the manifest
makes the whole audit return the fatal error naming that entry's code
identity and address (wrapped by the traversal's "Failed iterating map"
context); no report is produced (the error outcome carries none). -/
theorem claim3_unknown_code (E : Externs K) (store : Store K) (manifest : Manifest)
    (policy : K.Policy) (expected : TokenAmount) (prior_epoch : ChainEpoch)
    (pre : List (List Nat × Actor)) (k : List Nat) (a : Actor)
    (rest : List (List Nat × Actor)) (addr : Address)
    (hpre : ∀ e ∈ pre, entryOk E store manifest e = true)
    (hd : E.decodeAddress k = .ok addr)
    (hm : manifest a.code = none) :
    check_state_invariants E manifest policy ⟨pre ++ (k, a) :: rest, store⟩
        expected prior_epoch
      = .error (.failedIteratingMap (.unexpectedActorCode a.code addr))
    ∧ checkStateInvariantsReport E manifest policy ⟨pre ++ (k, a) :: rest, store⟩
        expected prior_epoch
      = .error (.failedIteratingMap (.unexpectedActorCode a.code addr)) := by
  obtain ⟨st', hst'⟩ := forEachGo_ok E store manifest policy prior_epoch pre
    (AuditState.init K) hpre
  have hrun : runAudit E manifest policy ⟨pre ++ (k, a) :: rest, store⟩ prior_epoch
      = .error (.failedIteratingMap (.unexpectedActorCode a.code addr)) := by
    rw [runAudit_eq, forEachGo_append, hst', bindOkEq,
        forEachGo_cons_err E.decodeAddress _ k a rest st' _ addr _ hd
          (checkEntry_unknown E store manifest policy prior_epoch addr a st' hm)]
    rfl
  exact ⟨by unfold check_state_invariants; rw [hrun]; rfl,
         by unfold checkStateInvariantsReport; rw [hrun]; rfl⟩

/-- Witness for C3: a tree whose second entry has code identity 99 (unknown
to `m0`) aborts with the error naming code 99 and ID address 2. -/
theorem claim3_witness :
    check_state_invariants E0 m0 () treeUnknown 7 0
      = .error (.failedIteratingMap (.unexpectedActorCode 99 ⟨Protocol.ID, 2⟩))
    ∧ checkStateInvariantsReport E0 m0 () treeUnknown 7 0
      = .error (.failedIteratingMap (.unexpectedActorCode 99 ⟨Protocol.ID, 2⟩)) :=
  claim3_unknown_code E0 store0 m0 () 7 0 [([0, 1], sysActor)] [0, 2] unknownActor []
    ⟨Protocol.ID, 2⟩ (by decide) rfl rfl

/-- Claim C4: a non-System entry whose declared kind is in the manifest but
whose head is absent from the content store makes the whole audit return a
fatal error (the `get_state!` "is empty" error, wrapped by the traversal
context); no report is produced. -/
theorem claim4_missing_state (E : Externs K) (store : Store K) (manifest : Manifest)
    (policy : K.Policy) (expected : TokenAmount) (prior_epoch : ChainEpoch)
    (pre : List (List Nat × Actor)) (k : List Nat) (a : Actor)
    (rest : List (List Nat × Actor)) (addr : Address) (t : ActorType)
    (hpre : ∀ e ∈ pre, entryOk E store manifest e = true)
    (hd : E.decodeAddress k = .ok addr)
    (hm : manifest a.code = some t) (ht : t ≠ .System)
    (he : headEmpty store t a = true) :
    check_state_invariants E manifest policy ⟨pre ++ (k, a) :: rest, store⟩
        expected prior_epoch
      = .error (.failedIteratingMap (.stateEmpty (stateEmptyName t)))
    ∧ checkStateInvariantsReport E manifest policy ⟨pre ++ (k, a) :: rest, store⟩
        expected prior_epoch
      = .error (.failedIteratingMap (.stateEmpty (stateEmptyName t))) := by
  obtain ⟨st', hst'⟩ := forEachGo_ok E store manifest policy prior_epoch pre
    (AuditState.init K) hpre
  have hrun : runAudit E manifest policy ⟨pre ++ (k, a) :: rest, store⟩ prior_epoch
      = .error (.failedIteratingMap (.stateEmpty (stateEmptyName t))) := by
    rw [runAudit_eq, forEachGo_append, hst', bindOkEq,
        forEachGo_cons_err E.decodeAddress _ k a rest st' _ addr _ hd
          (checkEntry_emptyHead E store manifest policy prior_epoch addr a st' t hm ht he)]
    rfl
  exact ⟨by unfold check_state_invariants; rw [hrun]; rfl,
         by unfold checkStateInvariantsReport; rw [hrun]; rfl⟩

/-- Witness for C4: a tree whose second entry is an Init actor with an
absent head aborts with the "InitState is empty" error. -/
theorem claim4_witness :
    check_state_invariants E0 m0 () treeEmptyHead 2 0
      = .error (.failedIteratingMap (.stateEmpty "InitState"))
    ∧ checkStateInvariantsReport E0 m0 () treeEmptyHead 2 0
      = .error (.failedIteratingMap (.stateEmpty "InitState")) :=
  claim4_missing_state E0 store0 m0 () 2 0 [([0, 1], sysActor)] [0, 2] emptyInitActor []
    ⟨Protocol.ID, 2⟩ .Init (by decide) rfl rfl (by decide) rfl

/-- Claim C5: a raw tree key that does not decode to an address makes the
traversal (and hence the whole audit) abort with the fatal decode error,
whatever entries follow the malformed key: the result is the same for every
suffix, so the traversal never continues past it. -/
theorem claim5_malformed_key (E : Externs K) (store : Store K) (manifest : Manifest)
    (policy : K.Policy) (expected : TokenAmount) (prior_epoch : ChainEpoch)
    (pre : List (List Nat × Actor)) (k : List Nat) (a : Actor) (e : String)
    (hpre : ∀ e ∈ pre, entryOk E store manifest e = true)
    (hd : E.decodeAddress k = .error e) :
    ∀ rest : List (List Nat × Actor),
      check_state_invariants E manifest policy ⟨pre ++ (k, a) :: rest, store⟩
          expected prior_epoch
        = .error (.failedIteratingMap (.fromBytes e))
      ∧ checkStateInvariantsReport E manifest policy ⟨pre ++ (k, a) :: rest, store⟩
          expected prior_epoch
        = .error (.failedIteratingMap (.fromBytes e)) := by
  intro rest
  obtain ⟨st', hst'⟩ := forEachGo_ok E store manifest policy prior_epoch pre
    (AuditState.init K) hpre
  have hrun : runAudit E manifest policy ⟨pre ++ (k, a) :: rest, store⟩ prior_epoch
      = .error (.failedIteratingMap (.fromBytes e)) := by
    rw [runAudit_eq, forEachGo_append, hst', bindOkEq,
        forEachGo_cons_bad E.decodeAddress _ k a rest st' e hd]
    rfl
  exact ⟨by unfold check_state_invariants; rw [hrun]; rfl,
         by unfold checkStateInvariantsReport; rw [hrun]; rfl⟩

/-- Witness for C5: a tree whose second raw key is `[7]` (undecodable)
aborts with the wrapped decode error, with a further entry present after the
malformed key. -/
theorem claim5_witness :
    check_state_invariants E0 m0 () treeBadKey 0 0
      = .error (.failedIteratingMap (.fromBytes "invalid address bytes"))
    ∧ checkStateInvariantsReport E0 m0 () treeBadKey 0 0
      = .error (.failedIteratingMap (.fromBytes "invalid address bytes")) :=
  claim5_malformed_key E0 store0 m0 () 0 0 [([0, 1], sysActor)] [7] sysActor
    "invalid address bytes" (by decide) rfl [([0, 3], accActor5)]

/-- Claim C6: an entry keyed by a non-ID-protocol address contributes
exactly one protocol diagnostic — the message that names the address twice
around the phrase "unexpected address protocol in state tree root" — placed
before whatever messages the kind dispatch adds; the entry is still
dispatched normally and the fatal outcome is exactly that of the dispatch,
unaffected by the diagnostic. -/
theorem claim6_protocol_diag (E : Externs K) (store : Store K) (manifest : Manifest)
    (policy : K.Policy) (prior_epoch : ChainEpoch) (key : Address) (actor : Actor)
    (st : AuditState K) (h : key.protocol ≠ Protocol.ID) :
    (checkEntry E store manifest policy prior_epoch key actor st).1.acc
      = st.acc ++ protoMsg E key ::
          (dispatchEntry E store manifest policy prior_epoch key actor
            (AuditState.init K)).1.acc
    ∧ (checkEntry E store manifest policy prior_epoch key actor st).2
        = (dispatchEntry E store manifest policy prior_epoch key actor st).2
    ∧ protoMsg E key
        = E.showAddr key ++ " unexpected address protocol in state tree root: "
            ++ E.showAddr key := by
  refine ⟨?_, ?_, rfl⟩
  · unfold checkEntry
    rw [dispatch_acc]
    have hacc : (addBalance actor (protoCheck E key st)).acc
        = st.acc ++ [protoMsg E key] := by
      rw [protoCheck_nonid E key st h]
      rfl
    rw [hacc]
    simp
  · unfold checkEntry
    exact dispatch_err_indep E store manifest policy prior_epoch key actor _ st

/-- Witness for C6: a secp256k1-keyed account entry on the concrete
instantiation. -/
theorem claim6_witness :
    (checkEntry E0 store0 m0 () 0 ⟨Protocol.Secp256k1, 5⟩ accActor5
        (AuditState.init K0)).1.acc
      = (AuditState.init K0).acc ++ protoMsg E0 ⟨Protocol.Secp256k1, 5⟩ ::
          (dispatchEntry E0 store0 m0 () 0 ⟨Protocol.Secp256k1, 5⟩ accActor5
            (AuditState.init K0)).1.acc
    ∧ (checkEntry E0 store0 m0 () 0 ⟨Protocol.Secp256k1, 5⟩ accActor5
        (AuditState.init K0)).2
        = (dispatchEntry E0 store0 m0 () 0 ⟨Protocol.Secp256k1, 5⟩ accActor5
            (AuditState.init K0)).2
    ∧ protoMsg E0 ⟨Protocol.Secp256k1, 5⟩
        = E0.showAddr ⟨Protocol.Secp256k1, 5⟩
            ++ " unexpected address protocol in state tree root: "
            ++ E0.showAddr ⟨Protocol.Secp256k1, 5⟩ :=
  claim6_protocol_diag E0 store0 m0 () 0 ⟨Protocol.Secp256k1, 5⟩ accActor5
    (AuditState.init K0) (by decide)

/-- Claim C7 counterexample: on a concrete tree with two Init actors the
audit succeeds with an empty report — no diagnostic whatsoever is produced,
so the second occurrence of the singleton kind is not flagged as the claim
states; the retained summary is silently the second actor's (summary 1,
from head 101). -/
theorem claim7_counterexample :
    checkStateInvariantsReport E0 m0 () treeTwoInit 0 0 = .ok []
    ∧ runAudit E0 m0 () treeTwoInit 0 = .ok stTwoInit
    ∧ stTwoInit.init_summary = some 1 :=
  ⟨rfl, rfl, rfl⟩

/-- Claim C7 (amended): for every singleton kind (Init, Cron, Power, Market,
Reward, VerifiedRegistry) at most one summary is retained — the slot is an
`Option` — and a further actor of the same singleton kind silently
overwrites the retained summary with its own, appending only its checker's
messages (no anomaly diagnostic) and not aborting the run. -/
theorem claim7_singleton_overwrite (E : Externs K) (store : Store K)
    (manifest : Manifest) (policy : K.Policy) (prior_epoch : ChainEpoch) :
    (∀ (key : Address) (actor : Actor) (st : AuditState K) (s : K.InitState),
      manifest actor.code = some .Init →
      store.getInit actor.head = .ok (some s) →
      checkEntry E store manifest policy prior_epoch key actor st
        = ({ addBalance actor (protoCheck E key st) with
              acc := (addBalance actor (protoCheck E key st)).acc
                ++ kindMsgs E key "init: " (E.init_check s store).2,
              init_summary := some (E.init_check s store).1 }, none))
    ∧ (∀ (key : Address) (actor : Actor) (st : AuditState K) (s : K.CronState),
      manifest actor.code = some .Cron →
      store.getCron actor.head = .ok (some s) →
      checkEntry E store manifest policy prior_epoch key actor st
        = ({ addBalance actor (protoCheck E key st) with
              acc := (addBalance actor (protoCheck E key st)).acc
                ++ kindMsgs E key "cron: " (E.cron_check s).2,
              cron_summary := some (E.cron_check s).1 }, none))
    ∧ (∀ (key : Address) (actor : Actor) (st : AuditState K) (s : K.PowerState),
      manifest actor.code = some .Power →
      store.getPower actor.head = .ok (some s) →
      checkEntry E store manifest policy prior_epoch key actor st
        = ({ addBalance actor (protoCheck E key st) with
              acc := (addBalance actor (protoCheck E key st)).acc
                ++ kindMsgs E key "power: " (E.power_check policy s store).2,
              power_summary := some (E.power_check policy s store).1 }, none))
    ∧ (∀ (key : Address) (actor : Actor) (st : AuditState K) (s : K.MarketState),
      manifest actor.code = some .Market →
      store.getMarket actor.head = .ok (some s) →
      checkEntry E store manifest policy prior_epoch key actor st
        = ({ addBalance actor (protoCheck E key st) with
              acc := (addBalance actor (protoCheck E key st)).acc
                ++ kindMsgs E key "market: "
                    (E.market_check s store actor.balance prior_epoch).2,
              market_summary := some
                (E.market_check s store actor.balance prior_epoch).1 }, none))
    ∧ (∀ (key : Address) (actor : Actor) (st : AuditState K) (s : K.RewardState),
      manifest actor.code = some .Reward →
      store.getReward actor.head = .ok (some s) →
      checkEntry E store manifest policy prior_epoch key actor st
        = ({ addBalance actor (protoCheck E key st) with
              acc := (addBalance actor (protoCheck E key st)).acc
                ++ kindMsgs E key "reward: "
                    (E.reward_check s prior_epoch actor.balance).2,
              reward_summary := some
                (E.reward_check s prior_epoch actor.balance).1 }, none))
    ∧ (∀ (key : Address) (actor : Actor) (st : AuditState K) (s : K.VerifregState),
      manifest actor.code = some .VerifiedRegistry →
      store.getVerifreg actor.head = .ok (some s) →
      checkEntry E store manifest policy prior_epoch key actor st
        = ({ addBalance actor (protoCheck E key st) with
              acc := (addBalance actor (protoCheck E key st)).acc
                ++ kindMsgs E key "verifreg: " (E.verifreg_check s store).2,
              verifreg_summary := some (E.verifreg_check s store).1 }, none)) := by
  refine ⟨?_, ?_, ?_, ?_, ?_, ?_⟩ <;>
    (intro key actor st s hm hs
     unfold checkEntry dispatchEntry
     rw [hm, hs])

/-- Witness for the amended C7: a second Init actor processed from a state
that already holds an Init summary overwrites it with its own summary (1)
and emits no diagnostic. -/
theorem claim7_witness :
    checkEntry E0 store0 m0 () 0 ⟨Protocol.ID, 2⟩ initActorB stPriorInit
      = ({ addBalance initActorB (protoCheck E0 ⟨Protocol.ID, 2⟩ stPriorInit) with
            acc := (addBalance initActorB (protoCheck E0 ⟨Protocol.ID, 2⟩ stPriorInit)).acc
              ++ kindMsgs E0 ⟨Protocol.ID, 2⟩ "init: " (E0.init_check 1 store0).2,
            init_summary := some (E0.init_check 1 store0).1 }, none) :=
  (claim7_singleton_overwrite E0 store0 m0 () 0).1 ⟨Protocol.ID, 2⟩ initActorB
    stPriorInit 1 rfl rfl

/-- Claim C8: the running grand total is an exact arbitrary-precision sum:
each per-entry step adds exactly that entry's balance to the total, and a
traversal with no fatal abort ends with the total equal to the sum of the
balances of all entries, for trees of any size and balance magnitude. -/
theorem claim8_exact_sum (E : Externs K) (manifest : Manifest) (policy : K.Policy)
    (tree : Tree K) (prior_epoch : ChainEpoch) :
    (∀ (key : Address) (actor : Actor) (st : AuditState K),
      (checkEntry E tree.store manifest policy prior_epoch key actor st).1.total_fil
        = st.total_fil + actor.balance)
    ∧ ∀ st : AuditState K, runAudit E manifest policy tree prior_epoch = .ok st →
        st.total_fil = balanceSum tree.map := by
  constructor
  · intro key actor st
    exact checkEntry_total E tree.store manifest policy prior_epoch key actor st
  · intro st h
    have hfe : forEachGo E.decodeAddress
        (fun key actor s => checkEntry E tree.store manifest policy prior_epoch key actor s)
        tree.map (AuditState.init K) = .ok st :=
      mapError_eq_ok _ _ _ h
    have h2 := forEachGo_total E tree.store manifest policy prior_epoch tree.map
      (AuditState.init K) st hfe
    simpa [AuditState.init] using h2

/-- Witness for C8: the final state of the two-account tree's audit carries
total 8, the exact sum of balances 5 and 3. -/
theorem claim8_witness : st0.total_fil = balanceSum tree0.map :=
  (claim8_exact_sum E0 m0 () tree0 0).2 st0 rfl

/-- Claim C9: the verifier is deterministic — running the audit twice on the
same immutable snapshot (same manifest, policy, tree, expected balance and
prior epoch, with the same deterministic per-kind checkers, which the
embedding models as functions) yields identical outcomes: the same report or
the same fatal error, and identical final summary state. -/
theorem claim9_deterministic (E : Externs K) (manifest : Manifest) (policy : K.Policy)
    (tree : Tree K) (expected : TokenAmount) (prior_epoch : ChainEpoch) :
    checkStateInvariantsReport E manifest policy tree expected prior_epoch
      = checkStateInvariantsReport E manifest policy tree expected prior_epoch
    ∧ runAudit E manifest policy tree prior_epoch
      = runAudit E manifest policy tree prior_epoch
    ∧ check_state_invariants E manifest policy tree expected prior_epoch
      = check_state_invariants E manifest policy tree expected prior_epoch :=
  ⟨rfl, rfl, rfl⟩

/-- Claim C10: for an entry whose code identity is unknown to the manifest,
the per-entry body still adds the balance to the running total and records
the protocol diagnostic (when the key is not an ID address) before the
fatal `unexpected actor code` error is raised: the state component returned
alongside the error is exactly the protocol-checked, balance-added state. -/
theorem claim10_pre_abort_accumulation (E : Externs K) (store : Store K)
    (manifest : Manifest) (policy : K.Policy) (prior_epoch : ChainEpoch)
    (key : Address) (actor : Actor) (st : AuditState K)
    (hm : manifest actor.code = none) :
    checkEntry E store manifest policy prior_epoch key actor st
      = (addBalance actor (protoCheck E key st),
         some (.unexpectedActorCode actor.code key))
    ∧ (checkEntry E store manifest policy prior_epoch key actor st).1.total_fil
        = st.total_fil + actor.balance
    ∧ (key.protocol ≠ Protocol.ID →
        (checkEntry E store manifest policy prior_epoch key actor st).1.acc
          = st.acc ++ [protoMsg E key]) := by
  have h1 := checkEntry_unknown E store manifest policy prior_epoch key actor st hm
  refine ⟨h1, checkEntry_total E store manifest policy prior_epoch key actor st, ?_⟩
  intro hp
  rw [h1]
  show (addBalance actor (protoCheck E key st)).acc = _
  rw [protoCheck_nonid E key st hp]
  rfl

/-- Witness for C10: an unknown-code, secp256k1-keyed entry has its balance
added and its protocol diagnostic recorded in the state returned with the
fatal error. -/
theorem claim10_witness :
    checkEntry E0 store0 m0 () 0 ⟨Protocol.Secp256k1, 9⟩ unknownActor
        (AuditState.init K0)
      = (addBalance unknownActor
          (protoCheck E0 ⟨Protocol.Secp256k1, 9⟩ (AuditState.init K0)),
         some (.unexpectedActorCode 99 ⟨Protocol.Secp256k1, 9⟩))
    ∧ (checkEntry E0 store0 m0 () 0 ⟨Protocol.Secp256k1, 9⟩ unknownActor
        (AuditState.init K0)).1.total_fil
        = (AuditState.init K0).total_fil + unknownActor.balance
    ∧ ((⟨Protocol.Secp256k1, 9⟩ : Address).protocol ≠ Protocol.ID →
        (checkEntry E0 store0 m0 () 0 ⟨Protocol.Secp256k1, 9⟩ unknownActor
          (AuditState.init K0)).1.acc
          = (AuditState.init K0).acc ++ [protoMsg E0 ⟨Protocol.Secp256k1, 9⟩]) :=
  claim10_pre_abort_accumulation E0 store0 m0 () 0 ⟨Protocol.Secp256k1, 9⟩
    unknownActor (AuditState.init K0) rfl

end StateCheck
